import Mathlib

/-
  Verification development for the st_fast_rag repository.

  Shallow embedding of the backend (database.py, crud.py, llm_abstraction.py,
  main.py) and the frontend client facade (frontend/utils.py).

  The relational store is modelled as in-memory lists of rows plus an id
  counter and a monotone clock standing for func.now() timestamps.  The LLM
  provider's token stream is an opaque input: a finite list of chunks that
  either ends normally or is cut off by an error (StreamOutcome).  The
  /generate_stream endpoint is modelled as a function from environment,
  request and provider stream to the sequential trace of its observable
  actions (persistence writes and emitted fragments) plus an HTTP status.
-/

namespace StFastRag

/-- Row of the chat_history table (database.py, class ChatHistory). -/
structure ChatHistoryRow where
  id : Nat
  session_id : String
  timestamp : Nat
  role : String
  message : String
  llm_provider : String
  llm_model : String
  deriving DecidableEq

/-- Row of the notes table (database.py, class Note).  The columns url,
comments and tags are declared nullable=False in the schema but are not part
of the NoteCreate API schema, so they are Option-valued here and their
NOT NULL constraint is checked at commit time. -/
structure NoteRow where
  id : Nat
  timestamp : Nat
  title : String
  url : Option String
  content : String
  comments : Option String
  tags : Option String
  deriving DecidableEq

/-- The whole relational store plus id counters and a monotone clock. -/
structure DB where
  chat : List ChatHistoryRow
  notes : List NoteRow
  nextChatId : Nat
  nextNoteId : Nat
  clock : Nat
  deriving DecidableEq

def emptyDB : DB := ⟨[], [], 1, 1, 0⟩

/-- Pydantic schema ChatMessageCreate (crud.py).  role is a plain string. -/
structure ChatMessageCreate where
  session_id : String
  role : String
  message : String
  llm_provider : String
  llm_model : String
  deriving DecidableEq

/-- Pydantic schema NoteCreate (crud.py): only title and content. -/
structure NoteCreate where
  title : String
  content : String
  deriving DecidableEq

/-- Pydantic schema NoteUpdate (crud.py): full update of title and content. -/
structure NoteUpdate where
  title : String
  content : String
  deriving DecidableEq

/-- crud.create_chat_message: INSERT a chat_history row, assign id and
timestamp, return the refreshed row and the new store. -/
def create_chat_message (db : DB) (m : ChatMessageCreate) : ChatHistoryRow × DB :=
  let row : ChatHistoryRow :=
    { id := db.nextChatId, session_id := m.session_id, timestamp := db.clock,
      role := m.role, message := m.message,
      llm_provider := m.llm_provider, llm_model := m.llm_model }
  (row, { db with chat := db.chat ++ [row],
                  nextChatId := db.nextChatId + 1, clock := db.clock + 1 })

/-- Ascending order on chat rows by timestamp (ORDER BY timestamp). -/
def tsAsc (a b : ChatHistoryRow) : Prop := a.timestamp ≤ b.timestamp

instance : DecidableRel tsAsc := fun a b => Nat.decLe a.timestamp b.timestamp

instance : IsTotal ChatHistoryRow tsAsc := ⟨fun a b => Nat.le_total a.timestamp b.timestamp⟩

instance : IsTrans ChatHistoryRow tsAsc := ⟨fun _ _ _ h1 h2 => Nat.le_trans h1 h2⟩

/-- crud.get_chat_history: filter by session_id, ORDER BY timestamp ascending,
OFFSET skip, LIMIT limit. -/
def get_chat_history (db : DB) (session_id : String) (skip limit : Nat) :
    List ChatHistoryRow :=
  ((List.insertionSort tsAsc
      (db.chat.filter (fun m => m.session_id == session_id))).drop skip).take limit

/-- Errors raised by the store at commit time. -/
inductive DBError
  | notNullViolation
  deriving DecidableEq

/-- NOT NULL check for the notes table columns absent from NoteCreate. -/
def noteNotNullOk (r : NoteRow) : Bool :=
  r.url.isSome && r.comments.isSome && r.tags.isSome

/-- crud.create_note: builds Note(**note.dict()) from title and content only,
leaving url, comments and tags NULL, then commits; the commit enforces the
schema's NOT NULL constraints. -/
def create_note (db : DB) (n : NoteCreate) : Except DBError (NoteRow × DB) :=
  let row : NoteRow :=
    { id := db.nextNoteId, timestamp := db.clock, title := n.title,
      url := none, content := n.content, comments := none, tags := none }
  if noteNotNullOk row then
    Except.ok (row, { db with notes := db.notes ++ [row],
                              nextNoteId := db.nextNoteId + 1, clock := db.clock + 1 })
  else
    Except.error DBError.notNullViolation

/-- crud.get_note: first row with matching id, or none. -/
def get_note (db : DB) (note_id : Nat) : Option NoteRow :=
  (db.notes.filter (fun r => r.id == note_id)).head?

/-- Descending order on notes by timestamp (ORDER BY timestamp DESC). -/
def tsDesc (a b : NoteRow) : Prop := b.timestamp ≤ a.timestamp

instance : DecidableRel tsDesc := fun a b => Nat.decLe b.timestamp a.timestamp

instance : IsTotal NoteRow tsDesc := ⟨fun a b => Nat.le_total b.timestamp a.timestamp⟩

instance : IsTrans NoteRow tsDesc := ⟨fun _ _ _ h1 h2 => Nat.le_trans h2 h1⟩

/-- crud.get_notes: ORDER BY timestamp DESC, OFFSET skip, LIMIT limit. -/
def get_notes (db : DB) (skip limit : Nat) : List NoteRow :=
  ((List.insertionSort tsDesc db.notes).drop skip).take limit

/-- crud.update_note: overwrite title and content of the row with the given
id, if any; returns the updated row or none. -/
def update_note (db : DB) (note_id : Nat) (n : NoteUpdate) : Option NoteRow × DB :=
  match (db.notes.filter (fun r => r.id == note_id)).head? with
  | none => (none, db)
  | some row =>
      let row2 := { row with title := n.title, content := n.content }
      (some row2,
       { db with notes := db.notes.map (fun r => if r.id == note_id then row2 else r) })

/-- crud.delete_note: remove the row with the given id, if any; returns the
deleted row or none. -/
def delete_note (db : DB) (note_id : Nat) : Option NoteRow × DB :=
  match (db.notes.filter (fun r => r.id == note_id)).head? with
  | none => (none, db)
  | some row => (some row, { db with notes := db.notes.filter (fun r => !(r.id == note_id)) })

/-- The credential environment variables read by llm_abstraction.get_llm.
none models an unset variable; Python also treats the empty string as unset. -/
structure Env where
  anthropic_api_key : Option String
  openai_api_key : Option String
  google_api_key : Option String
  deriving DecidableEq

/-- Python truthiness of os.getenv: None and the empty string are falsy. -/
def truthy : Option String → Bool
  | none => false
  | some s => !(s == "")

/-- The initialized chat-model handle returned by get_llm (opaque to the
rest of the system: only its existence matters). -/
structure LLMHandle where
  provider : String
  model_name : String
  temperature : ℚ
  max_tokens : Int
  streaming : Bool
  deriving DecidableEq

/-- llm_abstraction.get_llm: dispatch on the provider tag, require the
matching credential, raise ValueError (modelled as Except.error with the
message) when it is absent or the tag is unrecognized. -/
def get_llm (env : Env) (provider : String) (model_name : String)
    (temperature : ℚ) (max_tokens : Int) (streaming : Bool) :
    Except String LLMHandle :=
  if provider == "claude" then
    if truthy env.anthropic_api_key then
      Except.ok ⟨"claude", model_name, temperature, max_tokens, streaming⟩
    else Except.error "ANTHROPIC_API_KEY environment variable not set."
  else if provider == "openai" then
    if truthy env.openai_api_key then
      Except.ok ⟨"openai", model_name, temperature, max_tokens, streaming⟩
    else Except.error "OPENAI_API_KEY environment variable not set."
  else if provider == "gemini" then
    if truthy env.google_api_key then
      Except.ok ⟨"gemini", model_name, temperature, max_tokens, streaming⟩
    else Except.error "GOOGLE_API_KEY environment variable not set."
  else Except.error ("Unsupported LLM provider: " ++ provider)

/-- main.GenerateRequest: the request body of POST /generate_stream.  All
fields are plain values; which of them the framework validates is captured
separately in pydantic_accepts_GenerateRequest. -/
structure GenerateRequest where
  question : String
  llm_provider : String
  llm_model : String
  temperature : ℚ
  max_tokens : Int
  session_id : String
  rag_enabled : Bool
  deriving DecidableEq

/-- The only value-level validation pydantic performs on GenerateRequest:
llm_provider is Literal["claude", "openai", "gemini"].  question, llm_model,
temperature and max_tokens carry no constraints in the model. -/
def pydantic_accepts_GenerateRequest (r : GenerateRequest) : Bool :=
  r.llm_provider == "claude" || r.llm_provider == "openai" || r.llm_provider == "gemini"

/-- Behaviour of the provider's token stream for one request: a finite list
of chunks ending either normally or in a mid-stream exception. -/
inductive StreamOutcome
  | success (chunks : List String)
  | failAfter (chunks : List String) (err : String)
  deriving DecidableEq

/-- One observable action of the /generate_stream handler, in sequence:
a chat-history write through create_chat_message, a fragment relayed to the
caller, or an error propagated to the caller mid-stream. -/
inductive Action
  | persist (m : ChatMessageCreate)
  | emit (c : String)
  | emitError (e : String)
  deriving DecidableEq

/-- The chunk loop of generate_response_chunks: for each chunk, append it to
the accumulator (assistant_response_full += chunk) and yield it.  Returns the
emitted actions and the final accumulator. -/
def relayChunks (acc : String) : List String → List Action × String
  | [] => ([], acc)
  | c :: cs =>
      let r := relayChunks (acc ++ c) cs
      (Action.emit c :: r.1, r.2)

/-- main.generate_response_chunks: relay every chunk while accumulating; on
normal exhaustion persist one assistant message built from the accumulator;
on a mid-stream exception propagate the error and skip the persist step.
Returns the generator's actions and whether it completed successfully. -/
def generate_response_chunks (req : GenerateRequest) :
    StreamOutcome → List Action × Bool
  | StreamOutcome.success chunks =>
      let r := relayChunks "" chunks
      (r.1 ++ [Action.persist
        ⟨req.session_id, "assistant", r.2, req.llm_provider, req.llm_model⟩], true)
  | StreamOutcome.failAfter chunks err =>
      let r := relayChunks "" chunks
      (r.1 ++ [Action.emitError err], false)

/-- HTTP statuses the modelled endpoints produce. -/
inductive HTTPStatus
  | ok
  | badRequest
  | unprocessable
  | notFound
  | internalError
  deriving DecidableEq

/-- Result of one call to POST /generate_stream: the response status, its
detail text when the request was rejected, and the sequential trace of
persistence writes and emitted fragments. -/
structure GenOutcome where
  status : HTTPStatus
  detail : Option String
  actions : List Action
  deriving DecidableEq

/-- main.generate_stream, after pydantic acceptance: persist the user message
first, then build the LLM via get_llm — a ValueError there is caught and
returned as HTTP 400 — and otherwise run the streaming generator. -/
def generate_stream (env : Env) (req : GenerateRequest) (s : StreamOutcome) :
    GenOutcome :=
  let userMsg : ChatMessageCreate :=
    ⟨req.session_id, "user", req.question, req.llm_provider, req.llm_model⟩
  match get_llm env req.llm_provider req.llm_model req.temperature req.max_tokens true with
  | Except.error ve => ⟨HTTPStatus.badRequest, some ve, [Action.persist userMsg]⟩
  | Except.ok _ =>
      let g := generate_response_chunks req s
      ⟨HTTPStatus.ok, none, Action.persist userMsg :: g.1⟩

/-- The full POST /generate_stream endpoint: pydantic validates the body
before the handler runs (rejecting with 422 and no side effects), then the
handler proceeds as generate_stream. -/
def post_generate_stream (env : Env) (req : GenerateRequest) (s : StreamOutcome) :
    GenOutcome :=
  if pydantic_accepts_GenerateRequest req then generate_stream env req s
  else ⟨HTTPStatus.unprocessable, some "request validation failed", []⟩

/-- Replay one action against the store: persistence actions run
create_chat_message; emissions do not touch the store. -/
def applyAction (db : DB) : Action → DB
  | Action.persist m => (create_chat_message db m).2
  | Action.emit _ => db
  | Action.emitError _ => db

/-- Replay a trace of actions against the store, in order. -/
def runActions (db : DB) (as : List Action) : DB := as.foldl applyAction db

/-- The fragments a caller observes in a trace, in order. -/
def emittedChunks (as : List Action) : List String :=
  as.filterMap (fun a => match a with | Action.emit c => some c | _ => none)

/-- The chat messages persisted by a trace, in order. -/
def persistedMessages (as : List Action) : List ChatMessageCreate :=
  as.filterMap (fun a => match a with | Action.persist m => some m | _ => none)

/-- Concatenation of fragments in order, as the += loop computes it. -/
def concatChunks (cs : List String) : String := cs.foldl (fun a c => a ++ c) ""

/-- Scans a trace and checks that no fragment is emitted before a chat
message with role user has been persisted. -/
def noEmitBeforeUserPersist : List Action → Bool
  | [] => true
  | Action.emit _ :: _ => false
  | Action.emitError _ :: rest => noEmitBeforeUserPersist rest
  | Action.persist m :: rest =>
      if m.role == "user" then true else noEmitBeforeUserPersist rest

/-- main.get_session_chat_history: GET /chat_history/{session_id} calls
crud.get_chat_history with its default skip=0, limit=100. -/
def get_session_chat_history (db : DB) (session_id : String) : List ChatHistoryRow :=
  get_chat_history db session_id 0 100

/-- main.create_new_chat_message: POST /chat_history/ stores the body via
crud.create_chat_message with no further validation. -/
def create_new_chat_message (db : DB) (m : ChatMessageCreate) : ChatHistoryRow × DB :=
  create_chat_message db m

/-- main.read_notes: GET /notes/ calls crud.get_notes (defaults skip=0,
limit=100 at the HTTP layer). -/
def read_notes (db : DB) (skip limit : Nat) : List NoteRow :=
  get_notes db skip limit

/-- main.read_note: GET /notes/{note_id}, 404 when the id is unknown. -/
def read_note (db : DB) (note_id : Nat) : Except HTTPStatus NoteRow :=
  match get_note db note_id with
  | none => Except.error HTTPStatus.notFound
  | some r => Except.ok r

/-- Outcome of one HTTP exchange as seen by a frontend client function:
either the decoded success value, or one of the three failure shapes the
code distinguishes (httpx.HTTPStatusError, httpx.RequestError, anything
else). -/
inductive Transport (α : Type)
  | success (value : α)
  | httpStatusError (code : Nat) (body : String)
  | requestError (msg : String)
  | otherError (msg : String)
  deriving DecidableEq

/-- Whether the exchange failed. -/
def Transport.isFailure {α : Type} : Transport α → Bool
  | Transport.success _ => false
  | _ => true

/-- What a client function does with the exchange: return a value to its
caller, or re-raise the exception. -/
inductive ClientOutcome (α : Type)
  | returned (value : α)
  | raised (msg : String)
  deriving DecidableEq

/-- utils.get_chat_history_from_backend: returns the decoded list, and on
every failure shape returns the empty list instead of raising. -/
def get_chat_history_from_backend (t : Transport (List ChatHistoryRow)) :
    ClientOutcome (List ChatHistoryRow) :=
  match t with
  | Transport.success v => ClientOutcome.returned v
  | Transport.httpStatusError _ _ => ClientOutcome.returned []
  | Transport.requestError _ => ClientOutcome.returned []
  | Transport.otherError _ => ClientOutcome.returned []

/-- utils.get_notes_from_backend: returns the decoded list, and on every
failure shape returns the empty list instead of raising. -/
def get_notes_from_backend (t : Transport (List NoteRow)) :
    ClientOutcome (List NoteRow) :=
  match t with
  | Transport.success v => ClientOutcome.returned v
  | Transport.httpStatusError _ _ => ClientOutcome.returned []
  | Transport.requestError _ => ClientOutcome.returned []
  | Transport.otherError _ => ClientOutcome.returned []

/-- utils.save_chat_message_to_backend: on every failure shape the except
block re-raises after displaying the error. -/
def save_chat_message_to_backend (t : Transport Unit) : ClientOutcome Unit :=
  match t with
  | Transport.success v => ClientOutcome.returned v
  | Transport.httpStatusError code body =>
      ClientOutcome.raised ("HTTP " ++ toString code ++ ": " ++ body)
  | Transport.requestError m => ClientOutcome.raised m
  | Transport.otherError m => ClientOutcome.raised m

/-- utils.create_note_backend: returns the created note on success, and on
every failure shape swallows the exception and returns None. -/
def create_note_backend (t : Transport NoteRow) : ClientOutcome (Option NoteRow) :=
  match t with
  | Transport.success v => ClientOutcome.returned (some v)
  | Transport.httpStatusError _ _ => ClientOutcome.returned none
  | Transport.requestError _ => ClientOutcome.returned none
  | Transport.otherError _ => ClientOutcome.returned none

/-- utils.update_note_backend: returns the updated note on success, and on
every failure shape swallows the exception and returns None. -/
def update_note_backend (t : Transport NoteRow) : ClientOutcome (Option NoteRow) :=
  match t with
  | Transport.success v => ClientOutcome.returned (some v)
  | Transport.httpStatusError _ _ => ClientOutcome.returned none
  | Transport.requestError _ => ClientOutcome.returned none
  | Transport.otherError _ => ClientOutcome.returned none

/-- utils.delete_note_backend: returns True on success, and on every failure
shape swallows the exception and returns False. -/
def delete_note_backend (t : Transport Unit) : ClientOutcome Bool :=
  match t with
  | Transport.success _ => ClientOutcome.returned true
  | Transport.httpStatusError _ _ => ClientOutcome.returned false
  | Transport.requestError _ => ClientOutcome.returned false
  | Transport.otherError _ => ClientOutcome.returned false

/-- The user message generate_stream persists before streaming. -/
def userMessageOf (req : GenerateRequest) : ChatMessageCreate :=
  ⟨req.session_id, "user", req.question, req.llm_provider, req.llm_model⟩

/-- The assistant message generate_stream persists on success. -/
def assistantMessageOf (req : GenerateRequest) (text : String) : ChatMessageCreate :=
  ⟨req.session_id, "assistant", text, req.llm_provider, req.llm_model⟩

/-- Helper lemmas about the streaming pipeline. -/

theorem relayChunks_fst (cs : List String) :
    ∀ acc, (relayChunks acc cs).1 = cs.map Action.emit := by
  induction cs with
  | nil => intro acc; rfl
  | cons c cs ih => intro acc; simp [relayChunks, ih]

theorem concat_foldl_shift (cs : List String) :
    ∀ acc : String, cs.foldl (fun a c => a ++ c) acc = acc ++ concatChunks cs := by
  induction cs with
  | nil =>
      intro acc
      simp [concatChunks]
  | cons c cs ih =>
      intro acc
      have hr : concatChunks (c :: cs) = c ++ concatChunks cs := by
        show List.foldl (fun a c => a ++ c) "" (c :: cs) = c ++ concatChunks cs
        rw [List.foldl_cons, ih ("" ++ c), String.empty_append]
      rw [List.foldl_cons, ih (acc ++ c), hr, String.append_assoc]

theorem concatChunks_cons (c : String) (cs : List String) :
    concatChunks (c :: cs) = c ++ concatChunks cs := by
  show List.foldl (fun a c => a ++ c) "" (c :: cs) = c ++ concatChunks cs
  rw [List.foldl_cons, concat_foldl_shift cs ("" ++ c), String.empty_append]

theorem relayChunks_snd (cs : List String) :
    ∀ acc, (relayChunks acc cs).2 = acc ++ concatChunks cs := by
  induction cs with
  | nil => intro acc; simp [relayChunks, concatChunks]
  | cons c cs ih =>
      intro acc
      simp only [relayChunks, ih]
      rw [concatChunks_cons, ← String.append_assoc]

theorem relayChunks_empty_snd (cs : List String) :
    (relayChunks "" cs).2 = concatChunks cs := by
  rw [relayChunks_snd]
  simp

theorem persistedMessages_map_emit (cs : List String) :
    persistedMessages (cs.map Action.emit) = [] := by
  induction cs with
  | nil => rfl
  | cons c cs ih => simp [persistedMessages, List.filterMap_cons]

theorem emittedChunks_map_emit (cs : List String) :
    emittedChunks (cs.map Action.emit) = cs := by
  induction cs with
  | nil => rfl
  | cons c cs ih => simpa [emittedChunks, List.filterMap_cons] using ih

theorem runActions_map_emit (db : DB) (cs : List String) :
    runActions db (cs.map Action.emit) = db := by
  induction cs generalizing db with
  | nil => rfl
  | cons c cs ih => exact ih db

theorem persistedMessages_append (as bs : List Action) :
    persistedMessages (as ++ bs) = persistedMessages as ++ persistedMessages bs := by
  simp [persistedMessages]

theorem emittedChunks_append (as bs : List Action) :
    emittedChunks (as ++ bs) = emittedChunks as ++ emittedChunks bs := by
  simp [emittedChunks]

theorem runActions_append (db : DB) (as bs : List Action) :
    runActions db (as ++ bs) = runActions (runActions db as) bs := by
  simp [runActions]

/-- Shape of the success trace: after a valid request obtains an LLM handle,
the trace is the user persist, then the chunks in order, then one assistant
persist carrying the accumulated text. -/
theorem generate_stream_success_trace (env : Env) (req : GenerateRequest)
    (chunks : List String) (llm : LLMHandle)
    (hllm : get_llm env req.llm_provider req.llm_model req.temperature
              req.max_tokens true = Except.ok llm) :
    generate_stream env req (StreamOutcome.success chunks) =
      ⟨HTTPStatus.ok, none,
        Action.persist (userMessageOf req) ::
          (chunks.map Action.emit ++
            [Action.persist (assistantMessageOf req (concatChunks chunks))])⟩ := by
  simp [generate_stream, hllm, generate_response_chunks, relayChunks_fst,
        relayChunks_empty_snd, userMessageOf, assistantMessageOf]

/-- Shape of the failure trace: the chunks produced before the exception are
relayed in order, the error is propagated, and nothing else happens. -/
theorem generate_stream_failure_trace (env : Env) (req : GenerateRequest)
    (chunks : List String) (err : String) (llm : LLMHandle)
    (hllm : get_llm env req.llm_provider req.llm_model req.temperature
              req.max_tokens true = Except.ok llm) :
    generate_stream env req (StreamOutcome.failAfter chunks err) =
      ⟨HTTPStatus.ok, none,
        Action.persist (userMessageOf req) ::
          (chunks.map Action.emit ++ [Action.emitError err])⟩ := by
  simp [generate_stream, hllm, generate_response_chunks, relayChunks_fst,
        userMessageOf]

/-- Replaying the success trace appends exactly the user row and then the
assistant row to the chat table. -/
theorem runActions_user_emits_assistant (db : DB) (u a : ChatMessageCreate)
    (chunks : List String) :
    runActions db (Action.persist u :: (chunks.map Action.emit ++ [Action.persist a])) =
      (create_chat_message ((create_chat_message db u).2) a).2 := by
  show runActions ((create_chat_message db u).2)
        (chunks.map Action.emit ++ [Action.persist a]) = _
  rw [runActions_append, runActions_map_emit]
  rfl

/-- Replaying the failure trace appends exactly the user row. -/
theorem runActions_user_emits_error (db : DB) (u : ChatMessageCreate)
    (chunks : List String) (err : String) :
    runActions db (Action.persist u :: (chunks.map Action.emit ++ [Action.emitError err])) =
      (create_chat_message db u).2 := by
  show runActions ((create_chat_message db u).2)
        (chunks.map Action.emit ++ [Action.emitError err]) = _
  rw [runActions_append, runActions_map_emit]
  rfl

/-- Concrete fixtures used by the witnesses. -/

def envAll : Env := ⟨some "ak", some "ok", some "gk"⟩

def envNoKeys : Env := ⟨none, none, none⟩

def reqHi : GenerateRequest :=
  ⟨"Hi", "claude", "claude-3-5-sonnet", 7 / 10, 1024, "s1", false⟩

def llmHi : LLMHandle := ⟨"claude", "claude-3-5-sonnet", 7 / 10, 1024, true⟩

/-- C1: for every generation that runs to successful stream exhaustion,
exactly one assistant ChatMessage is persisted, its text is the
concatenation, in arrival order, of all fragments relayed to the caller,
and it carries the request's session_id, provider and model. -/
theorem generation_success_persists_single_assistant_C1
    (env : Env) (db : DB) (req : GenerateRequest) (chunks : List String)
    (llm : LLMHandle)
    (hval : pydantic_accepts_GenerateRequest req = true)
    (hllm : get_llm env req.llm_provider req.llm_model req.temperature
              req.max_tokens true = Except.ok llm) :
    emittedChunks (post_generate_stream env req (StreamOutcome.success chunks)).actions = chunks
    ∧ (persistedMessages
          (post_generate_stream env req (StreamOutcome.success chunks)).actions).filter
          (fun m => m.role == "assistant") =
        [assistantMessageOf req (concatChunks chunks)]
    ∧ (runActions db (post_generate_stream env req (StreamOutcome.success chunks)).actions).chat =
        db.chat ++
          [⟨db.nextChatId, req.session_id, db.clock, "user", req.question,
             req.llm_provider, req.llm_model⟩,
           ⟨db.nextChatId + 1, req.session_id, db.clock + 1, "assistant",
             concatChunks chunks, req.llm_provider, req.llm_model⟩] := by
  have hps : post_generate_stream env req (StreamOutcome.success chunks) =
      ⟨HTTPStatus.ok, none,
        Action.persist (userMessageOf req) ::
          (chunks.map Action.emit ++
            [Action.persist (assistantMessageOf req (concatChunks chunks))])⟩ := by
    simp only [post_generate_stream, hval, if_true]
    exact generate_stream_success_trace env req chunks llm hllm
  rw [hps]
  refine ⟨?_, ?_, ?_⟩
  · show emittedChunks
        (chunks.map Action.emit ++
          [Action.persist (assistantMessageOf req (concatChunks chunks))]) = chunks
    rw [emittedChunks_append, emittedChunks_map_emit]
    exact List.append_nil chunks
  · have hpm : persistedMessages
        (Action.persist (userMessageOf req) ::
          (chunks.map Action.emit ++
            [Action.persist (assistantMessageOf req (concatChunks chunks))])) =
        [userMessageOf req, assistantMessageOf req (concatChunks chunks)] := by
      show userMessageOf req ::
          persistedMessages
            (chunks.map Action.emit ++
              [Action.persist (assistantMessageOf req (concatChunks chunks))]) = _
      rw [persistedMessages_append, persistedMessages_map_emit]
      rfl
    rw [hpm]
    have h1 : (("user" : String) == "assistant") = false := rfl
    have h2 : (("assistant" : String) == "assistant") = true := rfl
    simp [userMessageOf, assistantMessageOf, List.filter_cons, h1, h2]
  · rw [runActions_user_emits_assistant]
    simp [create_chat_message, userMessageOf, assistantMessageOf]

/-- Witness for C1 on the spec's example: stub stream ["Hel", "lo!"]. -/
theorem generation_success_persists_single_assistant_C1_witness :
    emittedChunks (post_generate_stream envAll reqHi
        (StreamOutcome.success ["Hel", "lo!"])).actions = ["Hel", "lo!"]
    ∧ (runActions emptyDB (post_generate_stream envAll reqHi
          (StreamOutcome.success ["Hel", "lo!"])).actions).chat =
        emptyDB.chat ++
          [⟨emptyDB.nextChatId, reqHi.session_id, emptyDB.clock, "user", reqHi.question,
             reqHi.llm_provider, reqHi.llm_model⟩,
           ⟨emptyDB.nextChatId + 1, reqHi.session_id, emptyDB.clock + 1, "assistant",
             concatChunks ["Hel", "lo!"], reqHi.llm_provider, reqHi.llm_model⟩] :=
  ⟨(generation_success_persists_single_assistant_C1 envAll emptyDB reqHi
      ["Hel", "lo!"] llmHi (by decide) rfl).1,
   (generation_success_persists_single_assistant_C1 envAll emptyDB reqHi
      ["Hel", "lo!"] llmHi (by decide) rfl).2.2⟩

/-- C2: for every generation request, the trace of POST /generate_stream
never emits a fragment before a user-role chat message has been persisted,
and whenever the body is accepted the very first action is the synchronous
persist of the user message carrying the question. -/
theorem user_message_written_before_first_fragment_C2
    (env : Env) (req : GenerateRequest) (s : StreamOutcome) :
    noEmitBeforeUserPersist (post_generate_stream env req s).actions = true
    ∧ (pydantic_accepts_GenerateRequest req = true →
        (post_generate_stream env req s).actions.head? =
          some (Action.persist (userMessageOf req))) := by
  by_cases hval : pydantic_accepts_GenerateRequest req = true
  · cases hllm : get_llm env req.llm_provider req.llm_model req.temperature
        req.max_tokens true with
    | error ve =>
        constructor
        · simp [post_generate_stream, hval, generate_stream, hllm,
                noEmitBeforeUserPersist, userMessageOf]
        · intro _
          simp [post_generate_stream, hval, generate_stream, hllm, userMessageOf]
    | ok llm =>
        cases s with
        | success chunks =>
            have hps := generate_stream_success_trace env req chunks llm hllm
            constructor
            · simp [post_generate_stream, hval, hps, noEmitBeforeUserPersist,
                    userMessageOf]
            · intro _
              simp [post_generate_stream, hval, hps]
        | failAfter chunks err =>
            have hps := generate_stream_failure_trace env req chunks err llm hllm
            constructor
            · simp [post_generate_stream, hval, hps, noEmitBeforeUserPersist,
                    userMessageOf]
            · intro _
              simp [post_generate_stream, hval, hps]
  · have hv : pydantic_accepts_GenerateRequest req = false :=
      Bool.eq_false_iff.mpr hval
    constructor
    · simp [post_generate_stream, hv, noEmitBeforeUserPersist]
    · intro h
      exact absurd h hval

/-- Witness for C2 at the concrete example request and stub stream. -/
theorem user_message_written_before_first_fragment_C2_witness :
    noEmitBeforeUserPersist (post_generate_stream envAll reqHi
        (StreamOutcome.success ["Hel", "lo!"])).actions = true
    ∧ (post_generate_stream envAll reqHi
        (StreamOutcome.success ["Hel", "lo!"])).actions.head? =
      some (Action.persist (userMessageOf reqHi)) :=
  ⟨(user_message_written_before_first_fragment_C2 envAll reqHi
      (StreamOutcome.success ["Hel", "lo!"])).1,
   (user_message_written_before_first_fragment_C2 envAll reqHi
      (StreamOutcome.success ["Hel", "lo!"])).2 (by decide)⟩

/-- C3: when the provider stream fails after N fragments, the caller
observes exactly those N fragments in order followed by the error, no
assistant message is persisted for the attempt, and the store changes only
by the user message written before the stream started. -/
theorem midstream_failure_persists_user_only_C3
    (env : Env) (db : DB) (req : GenerateRequest) (chunks : List String)
    (err : String) (llm : LLMHandle)
    (hval : pydantic_accepts_GenerateRequest req = true)
    (hllm : get_llm env req.llm_provider req.llm_model req.temperature
              req.max_tokens true = Except.ok llm) :
    (post_generate_stream env req (StreamOutcome.failAfter chunks err)).actions =
      Action.persist (userMessageOf req) ::
        (chunks.map Action.emit ++ [Action.emitError err])
    ∧ (persistedMessages
          (post_generate_stream env req (StreamOutcome.failAfter chunks err)).actions).filter
          (fun m => m.role == "assistant") = []
    ∧ (runActions db (post_generate_stream env req (StreamOutcome.failAfter chunks err)).actions).chat =
        db.chat ++
          [⟨db.nextChatId, req.session_id, db.clock, "user", req.question,
             req.llm_provider, req.llm_model⟩]
    ∧ (runActions db (post_generate_stream env req (StreamOutcome.failAfter chunks err)).actions).notes =
        db.notes := by
  have hps : post_generate_stream env req (StreamOutcome.failAfter chunks err) =
      ⟨HTTPStatus.ok, none,
        Action.persist (userMessageOf req) ::
          (chunks.map Action.emit ++ [Action.emitError err])⟩ := by
    simp only [post_generate_stream, hval, if_true]
    exact generate_stream_failure_trace env req chunks err llm hllm
  rw [hps]
  refine ⟨rfl, ?_, ?_, ?_⟩
  · have hpm : persistedMessages
        (Action.persist (userMessageOf req) ::
          (chunks.map Action.emit ++ [Action.emitError err])) =
        [userMessageOf req] := by
      show userMessageOf req ::
          persistedMessages (chunks.map Action.emit ++ [Action.emitError err]) = _
      rw [persistedMessages_append, persistedMessages_map_emit]
      rfl
    rw [hpm]
    have h1 : (("user" : String) == "assistant") = false := rfl
    simp [userMessageOf, List.filter_cons, h1]
  · rw [runActions_user_emits_error]
    simp [create_chat_message, userMessageOf]
  · rw [runActions_user_emits_error]
    simp [create_chat_message]

/-- Witness for C3: stub stream that fails after one fragment. -/
theorem midstream_failure_persists_user_only_C3_witness :
    (post_generate_stream envAll reqHi (StreamOutcome.failAfter ["Hel"] "boom")).actions =
      Action.persist (userMessageOf reqHi) ::
        (["Hel"].map Action.emit ++ [Action.emitError "boom"])
    ∧ (runActions emptyDB (post_generate_stream envAll reqHi
          (StreamOutcome.failAfter ["Hel"] "boom")).actions).chat =
        emptyDB.chat ++
          [⟨emptyDB.nextChatId, reqHi.session_id, emptyDB.clock, "user", reqHi.question,
             reqHi.llm_provider, reqHi.llm_model⟩] :=
  ⟨(midstream_failure_persists_user_only_C3 envAll emptyDB reqHi ["Hel"] "boom"
      llmHi (by decide) rfl).1,
   (midstream_failure_persists_user_only_C3 envAll emptyDB reqHi ["Hel"] "boom"
      llmHi (by decide) rfl).2.2.1⟩

/-- A request violating every field constraint the spec lists, except the
provider tag: empty question, unknown model, temperature outside [0, 1],
non-positive max_tokens. -/
def reqBad : GenerateRequest := ⟨"", "claude", "not-a-model", 2, 0, "s1", false⟩

/-- C4 counterexample: a request with an empty question, an unknown model,
temperature 2 and max_tokens 0 is accepted, streams with HTTP 200 and emits
its fragment — it is not rejected with a validation error. -/
theorem validation_gap_C4_counterexample :
    reqBad.question = ""
    ∧ (1 : ℚ) < reqBad.temperature
    ∧ reqBad.max_tokens ≤ 0
    ∧ pydantic_accepts_GenerateRequest reqBad = true
    ∧ (post_generate_stream envAll reqBad (StreamOutcome.success ["x"])).status =
        HTTPStatus.ok
    ∧ emittedChunks (post_generate_stream envAll reqBad
        (StreamOutcome.success ["x"])).actions = ["x"] := by
  refine ⟨rfl, by norm_num [reqBad], by decide, by decide, by decide, by decide⟩

/-- A request whose provider tag is outside the Literal enumeration. -/
def reqGrok : GenerateRequest := ⟨"q", "grok", "m", 1, 1, "s1", false⟩

/-- C4 amended: request validation checks only the provider tag.  A request
whose llm_provider is outside the Literal enumeration is rejected by the
framework before the handler runs, with no fragments emitted and nothing
persisted; the other fields (question, model, temperature, max_tokens) carry
no constraints. -/
theorem only_provider_tag_validated_C4
    (env : Env) (req : GenerateRequest) (s : StreamOutcome)
    (h1 : req.llm_provider ≠ "claude") (h2 : req.llm_provider ≠ "openai")
    (h3 : req.llm_provider ≠ "gemini") :
    post_generate_stream env req s =
      ⟨HTTPStatus.unprocessable, some "request validation failed", []⟩
    ∧ emittedChunks (post_generate_stream env req s).actions = []
    ∧ persistedMessages (post_generate_stream env req s).actions = [] := by
  have hb : pydantic_accepts_GenerateRequest req = false := by
    simp [pydantic_accepts_GenerateRequest,
          beq_eq_false_iff_ne.mpr h1, beq_eq_false_iff_ne.mpr h2,
          beq_eq_false_iff_ne.mpr h3]
  refine ⟨?_, ?_, ?_⟩ <;>
    simp [post_generate_stream, hb, emittedChunks, persistedMessages]

/-- Witness for the amended C4 at the concrete tag "grok". -/
theorem only_provider_tag_validated_C4_witness :
    post_generate_stream envAll reqGrok (StreamOutcome.success ["x"]) =
      ⟨HTTPStatus.unprocessable, some "request validation failed", []⟩ :=
  (only_provider_tag_validated_C4 envAll reqGrok (StreamOutcome.success ["x"])
    (by decide) (by decide) (by decide)).1

/-- C5 counterexample: through the HTTP surface, a request whose provider
tag is outside the fixed enumeration is rejected by request validation with
status 422 and an empty trace — the provider adapter is never called, so the
unsupported-provider error is not surfaced to the HTTP caller as status 400,
even though get_llm itself does fail with that error when invoked
directly. -/
theorem unsupported_tag_not_http_400_C5_counterexample :
    get_llm envAll "grok" "m" 1 1 true =
      Except.error ("Unsupported LLM provider: " ++ "grok")
    ∧ (post_generate_stream envAll reqGrok (StreamOutcome.success ["x"])).status =
        HTTPStatus.unprocessable
    ∧ (post_generate_stream envAll reqGrok (StreamOutcome.success ["x"])).status ≠
        HTTPStatus.badRequest
    ∧ (post_generate_stream envAll reqGrok (StreamOutcome.success ["x"])).actions = [] := by
  refine ⟨rfl, rfl, by decide, rfl⟩

/-- C5 amended: a provider-adapter call with an absent credential fails with
the configuration error and one with a tag outside the fixed enumeration
fails with the unsupported-provider error; the configuration error is
surfaced to the HTTP caller as status 400 with no fragments and no retry
(the outcome does not depend on the provider stream at all), but a request
with an unknown tag never reaches the adapter over HTTP: the framework's
request validation rejects it with status 422, not 400. -/
theorem provider_errors_config_400_unsupported_422_C5
    (env : Env) (req : GenerateRequest) (s : StreamOutcome)
    (p model : String) (temp : ℚ) (mt : Int) (st : Bool) :
    (req.llm_provider = "claude" → env.anthropic_api_key = none →
      post_generate_stream env req s =
        ⟨HTTPStatus.badRequest,
         some "ANTHROPIC_API_KEY environment variable not set.",
         [Action.persist (userMessageOf req)]⟩)
    ∧ (req.llm_provider = "openai" → env.openai_api_key = none →
        post_generate_stream env req s =
          ⟨HTTPStatus.badRequest,
           some "OPENAI_API_KEY environment variable not set.",
           [Action.persist (userMessageOf req)]⟩)
    ∧ (req.llm_provider = "gemini" → env.google_api_key = none →
        post_generate_stream env req s =
          ⟨HTTPStatus.badRequest,
           some "GOOGLE_API_KEY environment variable not set.",
           [Action.persist (userMessageOf req)]⟩)
    ∧ (p ≠ "claude" → p ≠ "openai" → p ≠ "gemini" →
        get_llm env p model temp mt st =
          Except.error ("Unsupported LLM provider: " ++ p))
    ∧ (∀ ve, pydantic_accepts_GenerateRequest req = true →
        get_llm env req.llm_provider req.llm_model req.temperature
          req.max_tokens true = Except.error ve →
        (post_generate_stream env req s).status = HTTPStatus.badRequest
        ∧ emittedChunks (post_generate_stream env req s).actions = []
        ∧ ∀ s2, post_generate_stream env req s2 = post_generate_stream env req s)
    ∧ (req.llm_provider ≠ "claude" → req.llm_provider ≠ "openai" →
        req.llm_provider ≠ "gemini" →
        post_generate_stream env req s =
          ⟨HTTPStatus.unprocessable, some "request validation failed", []⟩
        ∧ (post_generate_stream env req s).status ≠ HTTPStatus.badRequest) := by
  refine ⟨?_, ?_, ?_, ?_, ?_, ?_⟩
  · intro hp hk
    have hval : pydantic_accepts_GenerateRequest req = true := by
      simp [pydantic_accepts_GenerateRequest, hp]
    simp [post_generate_stream, hval, generate_stream, get_llm, hp, hk, truthy,
          userMessageOf]
  · intro hp hk
    have hval : pydantic_accepts_GenerateRequest req = true := by
      simp [pydantic_accepts_GenerateRequest, hp]
    simp [post_generate_stream, hval, generate_stream, get_llm, hp, hk, truthy,
          userMessageOf]
  · intro hp hk
    have hval : pydantic_accepts_GenerateRequest req = true := by
      simp [pydantic_accepts_GenerateRequest, hp]
    simp [post_generate_stream, hval, generate_stream, get_llm, hp, hk, truthy,
          userMessageOf]
  · intro h1 h2 h3
    have b1 : (p == "claude") = false := beq_eq_false_iff_ne.mpr h1
    have b2 : (p == "openai") = false := beq_eq_false_iff_ne.mpr h2
    have b3 : (p == "gemini") = false := beq_eq_false_iff_ne.mpr h3
    simp [get_llm, b1, b2, b3]
  · intro ve hval hve
    refine ⟨?_, ?_, ?_⟩
    · simp [post_generate_stream, hval, generate_stream, hve]
    · simp [post_generate_stream, hval, generate_stream, hve, emittedChunks]
    · intro s2
      simp [post_generate_stream, hval, generate_stream, hve]
  · intro h1 h2 h3
    have hb : pydantic_accepts_GenerateRequest req = false := by
      simp [pydantic_accepts_GenerateRequest,
            beq_eq_false_iff_ne.mpr h1, beq_eq_false_iff_ne.mpr h2,
            beq_eq_false_iff_ne.mpr h3]
    have hpost : post_generate_stream env req s =
        ⟨HTTPStatus.unprocessable, some "request validation failed", []⟩ := by
      simp [post_generate_stream, hb]
    exact ⟨hpost, by rw [hpost]; decide⟩

/-- Witness for the amended C5: a missing Anthropic key surfaces as 400
with only the user write, a direct adapter call with tag "grok" fails with
the unsupported-provider error, and the same tag over HTTP is rejected with
422 before the adapter runs. -/
theorem provider_errors_config_400_unsupported_422_C5_witness :
    post_generate_stream envNoKeys reqHi (StreamOutcome.success ["x"]) =
      ⟨HTTPStatus.badRequest,
       some "ANTHROPIC_API_KEY environment variable not set.",
       [Action.persist (userMessageOf reqHi)]⟩
    ∧ get_llm envNoKeys "grok" "m" 1 1 true =
        Except.error ("Unsupported LLM provider: " ++ "grok")
    ∧ post_generate_stream envAll reqGrok (StreamOutcome.success ["x"]) =
        ⟨HTTPStatus.unprocessable, some "request validation failed", []⟩ :=
  ⟨(provider_errors_config_400_unsupported_422_C5 envNoKeys reqHi
      (StreamOutcome.success ["x"]) "grok" "m" 1 1 true).1 rfl rfl,
   (provider_errors_config_400_unsupported_422_C5 envNoKeys reqHi
      (StreamOutcome.success ["x"]) "grok" "m" 1 1 true).2.2.2.1
      (by decide) (by decide) (by decide),
   ((provider_errors_config_400_unsupported_422_C5 envAll reqGrok
      (StreamOutcome.success ["x"]) "grok" "m" 1 1 true).2.2.2.2.2
      (by decide) (by decide) (by decide)).1⟩

/-- A store with two chat rows for session s1, out of timestamp order. -/
def twoMsgDB : DB :=
  ⟨[⟨1, "s1", 5, "user", "a", "p", "m"⟩, ⟨2, "s1", 3, "assistant", "b", "p", "m"⟩],
   [], 3, 1, 6⟩

/-- C6: list_chat_history returns the session's messages in created_at
ascending order — for any session whose stored messages fit in the default
LIMIT window it returns exactly all of them, sorted — and for a session_id
with no stored messages it returns the empty sequence rather than an
error. -/
theorem chat_history_sorted_and_empty_for_unknown_C6 (db : DB) (sid : String) :
    List.Sorted tsAsc (get_chat_history db sid 0 100)
    ∧ (∀ m ∈ get_chat_history db sid 0 100, m.session_id = sid)
    ∧ ((db.chat.filter (fun m => m.session_id == sid)).length ≤ 100 →
        get_chat_history db sid 0 100 =
          List.insertionSort tsAsc (db.chat.filter (fun m => m.session_id == sid)))
    ∧ ((∀ m ∈ db.chat, m.session_id ≠ sid) → get_chat_history db sid 0 100 = []) := by
  have hs := List.sorted_insertionSort tsAsc
    (db.chat.filter (fun m => m.session_id == sid))
  refine ⟨?_, ?_, ?_, ?_⟩
  · show List.Sorted tsAsc
      (((List.insertionSort tsAsc
          (db.chat.filter (fun m => m.session_id == sid))).drop 0).take 100)
    rw [List.drop_zero]
    exact List.Pairwise.sublist (List.take_sublist _ _) hs
  · intro m hm
    have hm2 : m ∈ List.insertionSort tsAsc
        (db.chat.filter (fun m => m.session_id == sid)) := by
      have hsub : List.Sublist
          (((List.insertionSort tsAsc
              (db.chat.filter (fun m => m.session_id == sid))).drop 0).take 100)
          (List.insertionSort tsAsc
            (db.chat.filter (fun m => m.session_id == sid))) := by
        rw [List.drop_zero]
        exact List.take_sublist _ _
      exact hsub.subset hm
    have hm3 := (List.mem_insertionSort tsAsc).mp hm2
    have hm4 := List.mem_filter.mp hm3
    exact eq_of_beq hm4.2
  · intro hlen
    show ((List.insertionSort tsAsc
        (db.chat.filter (fun m => m.session_id == sid))).drop 0).take 100 = _
    rw [List.drop_zero]
    apply List.take_of_length_le
    rw [List.length_insertionSort]
    exact hlen
  · intro hnone
    have hf : db.chat.filter (fun m => m.session_id == sid) = [] := by
      apply List.filter_eq_nil_iff.mpr
      intro a ha
      simpa using hnone a ha
    show ((List.insertionSort tsAsc
        (db.chat.filter (fun m => m.session_id == sid))).drop 0).take 100 = _
    rw [hf]
    rfl

/-- Witness for C6: a two-message session comes back sorted in full, and an
unknown session comes back empty. -/
theorem chat_history_sorted_and_empty_for_unknown_C6_witness :
    get_chat_history twoMsgDB "s1" 0 100 =
      List.insertionSort tsAsc (twoMsgDB.chat.filter (fun m => m.session_id == "s1"))
    ∧ get_chat_history twoMsgDB "zzz" 0 100 = [] :=
  ⟨(chat_history_sorted_and_empty_for_unknown_C6 twoMsgDB "s1").2.2.1 (by decide),
   (chat_history_sorted_and_empty_for_unknown_C6 twoMsgDB "zzz").2.2.2 (by decide)⟩

/-- C7: every call to create_note fails the notes table's NOT NULL
constraints, because database.Note declares url, comments and tags as
nullable=False while NoteCreate supplies only title and content — so the
claimed create/get round-trip never completes its first step. -/
theorem create_note_hits_not_null_constraint_C7 (db : DB) (n : NoteCreate) :
    create_note db n = Except.error DBError.notNullViolation := rfl

/-- C8 counterexample: create_note_backend is a write client function, yet
on an HTTP 500 failure it swallows the error and returns None instead of
raising — the claimed write/read asymmetry does not hold for the note
writers. -/
theorem note_write_swallows_error_C8_counterexample :
    create_note_backend (Transport.httpStatusError 500 "boom") =
      ClientOutcome.returned none
    ∧ (Transport.httpStatusError 500 "boom" : Transport NoteRow).isFailure = true
    ∧ ¬∃ msg, create_note_backend (Transport.httpStatusError 500 "boom") =
        ClientOutcome.raised msg := by
  refine ⟨rfl, rfl, ?_⟩
  rintro ⟨msg, h⟩
  simp [create_note_backend] at h

/-- C8 amended: the read/list client functions return an empty result on any
failure, and save_chat_message_to_backend raises on any failure, but the
note write client functions swallow failures, returning None (create,
update) or False (delete) instead of raising. -/
theorem client_error_asymmetry_C8
    (t1 : Transport (List ChatHistoryRow)) (t2 : Transport (List NoteRow))
    (t3 : Transport Unit) (t4 t5 : Transport NoteRow) (t6 : Transport Unit)
    (h1 : t1.isFailure = true) (h2 : t2.isFailure = true)
    (h3 : t3.isFailure = true) (h4 : t4.isFailure = true)
    (h5 : t5.isFailure = true) (h6 : t6.isFailure = true) :
    get_chat_history_from_backend t1 = ClientOutcome.returned []
    ∧ get_notes_from_backend t2 = ClientOutcome.returned []
    ∧ (∃ msg, save_chat_message_to_backend t3 = ClientOutcome.raised msg)
    ∧ create_note_backend t4 = ClientOutcome.returned none
    ∧ update_note_backend t5 = ClientOutcome.returned none
    ∧ delete_note_backend t6 = ClientOutcome.returned false := by
  refine ⟨?_, ?_, ?_, ?_, ?_, ?_⟩
  · cases t1 with
    | success v => simp [Transport.isFailure] at h1
    | httpStatusError c b => rfl
    | requestError m => rfl
    | otherError m => rfl
  · cases t2 with
    | success v => simp [Transport.isFailure] at h2
    | httpStatusError c b => rfl
    | requestError m => rfl
    | otherError m => rfl
  · cases t3 with
    | success v => simp [Transport.isFailure] at h3
    | httpStatusError c b => exact ⟨_, rfl⟩
    | requestError m => exact ⟨_, rfl⟩
    | otherError m => exact ⟨_, rfl⟩
  · cases t4 with
    | success v => simp [Transport.isFailure] at h4
    | httpStatusError c b => rfl
    | requestError m => rfl
    | otherError m => rfl
  · cases t5 with
    | success v => simp [Transport.isFailure] at h5
    | httpStatusError c b => rfl
    | requestError m => rfl
    | otherError m => rfl
  · cases t6 with
    | success v => simp [Transport.isFailure] at h6
    | httpStatusError c b => rfl
    | requestError m => rfl
    | otherError m => rfl

/-- Witness for the amended C8 on a concrete network failure. -/
theorem client_error_asymmetry_C8_witness :
    get_chat_history_from_backend (Transport.requestError "down") =
      ClientOutcome.returned []
    ∧ (∃ msg, save_chat_message_to_backend (Transport.requestError "down") =
        ClientOutcome.raised msg)
    ∧ delete_note_backend (Transport.requestError "down") =
        ClientOutcome.returned false :=
  ⟨(client_error_asymmetry_C8 (Transport.requestError "down")
      (Transport.requestError "down") (Transport.requestError "down")
      (Transport.requestError "down") (Transport.requestError "down")
      (Transport.requestError "down") rfl rfl rfl rfl rfl rfl).1,
   (client_error_asymmetry_C8 (Transport.requestError "down")
      (Transport.requestError "down") (Transport.requestError "down")
      (Transport.requestError "down") (Transport.requestError "down")
      (Transport.requestError "down") rfl rfl rfl rfl rfl rfl).2.2.1,
   (client_error_asymmetry_C8 (Transport.requestError "down")
      (Transport.requestError "down") (Transport.requestError "down")
      (Transport.requestError "down") (Transport.requestError "down")
      (Transport.requestError "down") rfl rfl rfl rfl rfl rfl).2.2.2.2.2⟩

/-- A chat message whose role is neither user nor assistant. -/
def sysMsg : ChatMessageCreate := ⟨"s1", "system", "hello", "claude", "m1"⟩

/-- C9 counterexample: POST /chat_history/ stores a message whose role is
"system" — the stored-role invariant does not hold for that endpoint. -/
theorem role_unvalidated_C9_counterexample :
    ((create_new_chat_message emptyDB sysMsg).1).role = "system"
    ∧ (create_new_chat_message emptyDB sysMsg).1 ∈
        (create_new_chat_message emptyDB sysMsg).2.chat
    ∧ ¬(((create_new_chat_message emptyDB sysMsg).1).role = "user"
        ∨ ((create_new_chat_message emptyDB sysMsg).1).role = "assistant") := by
  decide

/-- C9 amended: messages persisted by the generation pipeline always have
role user or assistant, but create_chat_message (and hence POST
/chat_history/) performs no role validation and stores whatever role string
the caller supplies. -/
theorem generation_roles_user_or_assistant_C9
    (env : Env) (req : GenerateRequest) (s : StreamOutcome) :
    (∀ m ∈ persistedMessages (post_generate_stream env req s).actions,
        m.role = "user" ∨ m.role = "assistant")
    ∧ ∀ (db : DB) (m : ChatMessageCreate),
        ((create_new_chat_message db m).1).role = m.role := by
  constructor
  · by_cases hval : pydantic_accepts_GenerateRequest req = true
    · cases hllm : get_llm env req.llm_provider req.llm_model req.temperature
          req.max_tokens true with
      | error ve =>
          intro m hm
          have : persistedMessages (post_generate_stream env req s).actions =
              [userMessageOf req] := by
            simp [post_generate_stream, hval, generate_stream, hllm,
                  persistedMessages, userMessageOf]
          rw [this] at hm
          rcases List.mem_singleton.mp hm with rfl
          exact Or.inl rfl
      | ok llm =>
          cases s with
          | success chunks =>
              intro m hm
              have hps := generate_stream_success_trace env req chunks llm hllm
              have hpm : persistedMessages
                  (post_generate_stream env req (StreamOutcome.success chunks)).actions =
                  [userMessageOf req,
                   assistantMessageOf req (concatChunks chunks)] := by
                simp only [post_generate_stream, hval, if_true, hps]
                show userMessageOf req ::
                    persistedMessages (chunks.map Action.emit ++
                      [Action.persist (assistantMessageOf req (concatChunks chunks))]) = _
                rw [persistedMessages_append, persistedMessages_map_emit]
                rfl
              rw [hpm] at hm
              rcases List.mem_cons.mp hm with rfl | hm
              · exact Or.inl rfl
              · rcases List.mem_singleton.mp hm with rfl
                exact Or.inr rfl
          | failAfter chunks err =>
              intro m hm
              have hps := generate_stream_failure_trace env req chunks err llm hllm
              have hpm : persistedMessages
                  (post_generate_stream env req (StreamOutcome.failAfter chunks err)).actions =
                  [userMessageOf req] := by
                simp only [post_generate_stream, hval, if_true, hps]
                show userMessageOf req ::
                    persistedMessages (chunks.map Action.emit ++
                      [Action.emitError err]) = _
                rw [persistedMessages_append, persistedMessages_map_emit]
                rfl
              rw [hpm] at hm
              rcases List.mem_singleton.mp hm with rfl
              exact Or.inl rfl
    · have hv : pydantic_accepts_GenerateRequest req = false :=
        Bool.eq_false_iff.mpr hval
      intro m hm
      simp [post_generate_stream, hv, persistedMessages] at hm
  · intro db m
    rfl

/-- Witness for the amended C9: the user message of the example request is
persisted with role user, and a stored message keeps the caller's role. -/
theorem generation_roles_user_or_assistant_C9_witness :
    ((userMessageOf reqHi).role = "user" ∨ (userMessageOf reqHi).role = "assistant")
    ∧ ((create_new_chat_message emptyDB sysMsg).1).role = sysMsg.role :=
  ⟨(generation_roles_user_or_assistant_C9 envAll reqHi
      (StreamOutcome.success ["Hel"])).1 (userMessageOf reqHi) (by decide),
   (generation_roles_user_or_assistant_C9 envAll reqHi
      (StreamOutcome.success ["Hel"])).2 emptyDB sysMsg⟩

/-- A store holding 101 chat rows in session s1. -/
def bigDB : DB :=
  ⟨(List.range 101).map (fun i => ⟨i, "s1", i, "user", "m", "p", "mo"⟩),
   [], 102, 1, 101⟩

/-- C10: get_chat_history and get_notes return at most limit entries after
skipping skip; the chat-history endpoint uses skip=0, limit=100, so it
returns the first 100 of the ascending-sorted session messages, exactly 100
of them when the session holds more; GET /notes/ likewise returns at most
100 notes at its defaults. -/
theorem listing_cap_C10 (db : DB) (sid : String) (skip limit : Nat) :
    (get_chat_history db sid skip limit).length ≤ limit
    ∧ (get_notes db skip limit).length ≤ limit
    ∧ get_session_chat_history db sid =
        (List.insertionSort tsAsc
          (db.chat.filter (fun m => m.session_id == sid))).take 100
    ∧ ((db.chat.filter (fun m => m.session_id == sid)).length > 100 →
        (get_session_chat_history db sid).length = 100)
    ∧ (read_notes db 0 100).length ≤ 100 := by
  refine ⟨List.length_take_le _ _, List.length_take_le _ _, ?_, ?_, ?_⟩
  · show ((List.insertionSort tsAsc
        (db.chat.filter (fun m => m.session_id == sid))).drop 0).take 100 = _
    rw [List.drop_zero]
  · intro hgt
    show (((List.insertionSort tsAsc
        (db.chat.filter (fun m => m.session_id == sid))).drop 0).take 100).length = 100
    rw [List.drop_zero, List.length_take, List.length_insertionSort]
    exact Nat.min_eq_left (Nat.le_of_lt hgt)
  · exact List.length_take_le _ _

/-- Witness for C10: a session with 101 stored messages comes back with
exactly 100 entries, and a limit of 5 caps the listing at 5. -/
theorem listing_cap_C10_witness :
    (get_session_chat_history bigDB "s1").length = 100
    ∧ (get_chat_history bigDB "s1" 0 5).length ≤ 5 :=
  ⟨(listing_cap_C10 bigDB "s1" 0 5).2.2.2.1 (by decide),
   (listing_cap_C10 bigDB "s1" 0 5).1⟩

end StFastRag

